import Mathlib

/-
Verification development for the captioning repository's continuous
streaming recognition session manager.

The repository contains two session implementations plus a shared
audio-worklet module:
  * src/src/speech-recognition-sox.js and the first half of
    src/unnamed/part_000 ("sox variant"): external sox recording process,
    expiry classification on backend errors, a 10-second refresh timer
    against the 230-second stream age threshold, restart via unpipe/pipe.
  * src/src/speech-recognition.js and the second half of
    src/unnamed/part_000 ("web variant"): in-process WebAudio capture
    (AudioWorklet path with a ScriptProcessor fallback), float-to-int16
    sample conversion, a 30-entry audio buffer drained on reconnect.
  * src/unnamed/part_004: the AudioWorklet processor (AudioProcessor).

Every definition below is a direct shallow embedding of one of those
source functions; the source file and line ranges are given in the doc
comments.  Definitions whose names end in SR embed src/src/speech-recognition.js
(the variant without expiry classification or buffering); definitions
without a suffix embed the part_000 web variant unless stated otherwise.
-/

namespace Captions

/-- Events emitted by the session facade (EventEmitter vocabulary used by
all variants): start, interim(text), final(text), error(message), stop. -/
inductive Ev where
  | start : Ev
  | interim : String → Ev
  | final : String → Ev
  | error : String → Ev
  | stop : Ev
deriving DecidableEq, Repr

/-- Whether hay begins with needle, on character lists (helper for the
embedding of JavaScript String.prototype.includes). -/
def beginsWith : List Char → List Char → Bool
  | [], _ => true
  | _ :: _, [] => false
  | n :: ns, h :: hs => n == h && beginsWith ns hs

/-- Whether needle occurs as a contiguous subsequence of hay (helper for
the embedding of JavaScript String.prototype.includes). -/
def containsSeq (needle : List Char) : List Char → Bool
  | [] => beginsWith needle []
  | h :: hs => beginsWith needle (h :: hs) || containsSeq needle hs

/-- Embedding of JavaScript hay.includes(needle): substring containment,
case sensitive. -/
def includes (hay needle : String) : Bool :=
  containsSeq needle.data hay.data

/-- Expiry classification used by the sox variant and the part_000 web
variant (speech-recognition-sox.js lines 88-93, part_000 lines 95-99,
375-380): an error message is expiry-class when it contains the substring
"deadline" or the substring "DEADLINE_EXCEEDED". -/
def isExpiry (msg : String) : Bool :=
  includes msg "deadline" || includes msg "DEADLINE_EXCEEDED"

/-- Output of a backend-error handler: the events it emits and whether it
calls restartStream. -/
structure HandlerOut where
  events : List Ev
  restart : Bool
deriving DecidableEq, Repr

/-- Embedding of the stream error handler of speech-recognition-sox.js
lines 86-94 (identical in structure to part_000 lines 94-100 and 372-381):
if the message contains neither "deadline" nor "DEADLINE_EXCEEDED", emit
an error event; otherwise emit nothing and call restartStream. -/
def errorHandlerSox (msg : String) : HandlerOut :=
  if !(includes msg "deadline") && !(includes msg "DEADLINE_EXCEEDED") then
    { events := [Ev.error msg], restart := false }
  else
    { events := [], restart := true }

/-- Embedding of the stream error handler of speech-recognition.js lines
106-109: every backend error is emitted as an error event, with no
classification and no restart. -/
def errorHandlerSR (msg : String) : HandlerOut :=
  { events := [Ev.error msg], restart := false }

/-- Stream age threshold in milliseconds before a proactive refresh
(the 230000 in part_000 lines 87, 364 and speech-recognition-sox.js
line 78). -/
def STREAM_LIMIT_MS : Nat := 230000

/-- Period of the refresh timer in milliseconds (the 10000 passed to
setInterval in part_000 lines 90, 368 and speech-recognition-sox.js
line 82). -/
def CHECK_INTERVAL_MS : Nat := 10000

/-- Embedding of the refresh-timer callback (speech-recognition-sox.js
lines 76-82): the k-th firing of the setInterval occurs k check intervals
after the stream started, and triggers restartStream exactly when the
elapsed time strictly exceeds STREAM_LIMIT_MS. -/
def tickFires (k : Nat) : Bool :=
  decide (STREAM_LIMIT_MS < k * CHECK_INTERVAL_MS)

/-- The proactive-refresh property as the spec words it: some timer tick
both fires and happens at or before 230 seconds after stream start. -/
def specRefreshByLimit : Prop :=
  ∃ k : Nat, tickFires k = true ∧ k * CHECK_INTERVAL_MS ≤ STREAM_LIMIT_MS

/-- Sample conversion of the part_000 web variant (lines 459 and 512,
identical in both capture paths): int16Buffer[i] =
Math.max(-32768, Math.min(32767, Math.floor(sample * 32767))).
Samples are modelled as rationals; Math.floor is the integer floor. -/
def convertSampleFloor (s : ℚ) : ℤ :=
  max (-32768) (min 32767 ⌊s * 32767⌋)

/-- Truncation toward zero of a rational, as applied by assignment into a
JavaScript Int16Array to an already-clamped value (ToIntegerOrInfinity). -/
def truncQ (q : ℚ) : ℤ :=
  if q < 0 then ⌈q⌉ else ⌊q⌋

/-- Sample conversion of the AudioProcessor worklet, part_004 line 21
(same expression at speech-recognition.js line 164): outputBuffer[j] =
Math.max(-32768, Math.min(32767, s * 32768)), the fractional result then
truncated toward zero by the Int16Array store. -/
def convertSample32768 (s : ℚ) : ℤ :=
  truncQ (max (-32768) (min 32767 (s * 32768)))

/-- The sample-conversion formula as the spec words it:
clamp(round(s * 32767), -32768, 32767), with round-half-up rounding. -/
def specConvert (s : ℚ) : ℤ :=
  max (-32768) (min 32767 (round (s * 32767)))

/-- Audio-buffer append of the part_000 web variant (lines 474-477 and
545-548): push the frame, then if the buffer length exceeds 30, shift off
the oldest entry. Frames are opaque and modelled by their identifier. -/
def bufPush (buf : List Nat) (f : Nat) : List Nat :=
  let b := buf ++ [f]
  if 30 < b.length then b.tail else b

/-- Folding bufPush over a whole arrival sequence starting from a given
buffer: the buffer contents after every frame of fs has arrived while no
stream handle was writable. -/
def feedBuf (buf : List Nat) (fs : List Nat) : List Nat :=
  fs.foldl bufPush buf

/-- State of the part_000 web variant relevant to audio routing across a
reconnect: the isRecording flag, the current stream handle (none while the
old stream is destroyed and no replacement exists), the audio buffer, the
identifier the next created stream will get, and the ordered log of
(handle, frame) writes. -/
structure SessState where
  isRecording : Bool
  stream : Option Nat
  buffer : List Nat
  nextHandle : Nat
  writes : List (Nat × Nat)
deriving DecidableEq, Repr

/-- Frame delivery in the ScriptProcessor capture path of part_000
(lines 536-549): if the recognize stream exists and is not destroyed the
frame is written to it; otherwise, if still recording, it is appended to
the audio buffer with eviction. -/
def onFrameScript (s : SessState) (f : Nat) : SessState :=
  match s.stream with
  | some h => { s with writes := s.writes ++ [(h, f)] }
  | none => if s.isRecording then { s with buffer := bufPush s.buffer f } else s

/-- Frame delivery in the AudioWorklet capture path of part_000
(lines 447-483): the whole handler body runs only under the outer guard
that the recognize stream exists and is not destroyed, so a frame arriving
while no stream handle is writable is discarded; the buffering branch at
lines 472-478 sits inside that guard and is unreachable. -/
def onFrameWorklet (s : SessState) (f : Nat) : SessState :=
  match s.stream with
  | some h => { s with writes := s.writes ++ [(h, f)] }
  | none => s

/-- Delivering a whole sequence of frames through the ScriptProcessor
path. -/
def feedScript (s : SessState) (fs : List Nat) : SessState :=
  fs.foldl onFrameScript s

/-- Delivering a whole sequence of frames through the worklet path. -/
def feedWorklet (s : SessState) (fs : List Nat) : SessState :=
  fs.foldl onFrameWorklet s

/-- Embedding of the setTimeout body of restartStream in the part_000 web
variant (lines 420-432): if still recording, createRecognizeStream installs
a fresh stream handle, and then the while loop shifts the audio buffer
frame by frame into the new handle (FIFO) before control returns to the
audio callback; if not recording, nothing happens. -/
def restartBody (s : SessState) : SessState :=
  if s.isRecording then
    { s with
      stream := some s.nextHandle
      nextHandle := s.nextHandle + 1
      buffer := []
      writes := s.writes ++ s.buffer.map (fun f => (s.nextHandle, f)) }
  else s

/-- State for the reconnect-versus-stop race in speech-recognition-sox.js:
isRecording, the current stream handle, the next handle identifier, and
whether a restartStream setTimeout is pending. -/
structure ReconnSt where
  isRecording : Bool
  stream : Option Nat
  nextHandle : Nat
  pending : Bool
deriving DecidableEq, Repr

/-- restartStream (speech-recognition-sox.js line 122): schedules its body
on a 100 ms setTimeout. -/
def scheduleRestart (s : ReconnSt) : ReconnSt :=
  { s with pending := true }

/-- The setTimeout body of restartStream (speech-recognition-sox.js lines
123-134): when it fires, the pending flag clears; a new stream is created
only if isRecording is still true. -/
def fireRestart (s : ReconnSt) : ReconnSt :=
  if s.pending then
    if s.isRecording then
      { s with pending := false, stream := some s.nextHandle,
               nextHandle := s.nextHandle + 1 }
    else { s with pending := false }
  else s

/-- stop() of speech-recognition-sox.js lines 189-207, restricted to the
fields of ReconnSt: the first statement sets isRecording to false, the
stream is ended and cleared; the pending setTimeout (if any) is not
cancelled, only its body's isRecording check defuses it. -/
def stopReconn (s : ReconnSt) : ReconnSt :=
  { s with isRecording := false, stream := none }

/-- Dereference of a possibly-null JavaScript value: calling a method on
null or undefined throws a TypeError, modelled in Except. -/
def deref {α : Type} (o : Option α) : Except String α :=
  match o with
  | some a => Except.ok a
  | none => Except.error "TypeError"

/-- Nullable resources torn down by stop() in speech-recognition-sox.js:
the refresh interval, the sox record process, and the recognize stream,
plus the isRecording flag. -/
structure SoxSt where
  isRecording : Bool
  refreshInterval : Option Unit
  recordProcess : Option Unit
  recognizeStream : Option Unit
deriving DecidableEq, Repr

/-- Embedding of stop() of speech-recognition-sox.js lines 189-208
(identical to part_000 lines 214-233): set isRecording false; clear the
interval if non-null; kill the process if non-null; end the stream if
non-null; finally emit one stop event unconditionally.  Each use of a
resource goes through deref so that an unguarded null use would surface
as a TypeError. -/
def stopSox (s : SoxSt) : Except String (SoxSt × List Ev) := do
  let s0 : SoxSt := { s with isRecording := false }
  let s1 ← if s0.refreshInterval.isSome then do
      let _ ← deref s0.refreshInterval
      pure { s0 with refreshInterval := none }
    else pure s0
  let s2 ← if s1.recordProcess.isSome then do
      let _ ← deref s1.recordProcess
      pure { s1 with recordProcess := none }
    else pure s1
  let s3 ← if s2.recognizeStream.isSome then do
      let _ ← deref s2.recognizeStream
      pure { s2 with recognizeStream := none }
    else pure s2
  pure (s3, [Ev.stop])

/-- Two successive calls to the sox-variant stop(): the concatenated event
log of both calls, or the first TypeError raised. -/
def stopSoxTwice (s : SoxSt) : Except String (List Ev) := do
  let r1 ← stopSox s
  let r2 ← stopSox r1.1
  pure (r1.2 ++ r2.2)

/-- A sox-variant session on which start() was never called: the
constructor (speech-recognition-sox.js lines 6-16) initialises isRecording
to false and every resource to null. -/
def freshSox : SoxSt :=
  { isRecording := false, refreshInterval := none, recordProcess := none,
    recognizeStream := none }

/-- Nullable resources torn down by stop() in speech-recognition.js: the
recognize stream, audio context, audio processor, audio stream, and the
media recorder together with its state string. -/
structure SRSt where
  isRecording : Bool
  recognizeStream : Option Unit
  audioContext : Option Unit
  audioProcessor : Option Unit
  audioStream : Option Unit
  mediaRecorder : Option String
deriving DecidableEq, Repr

/-- Embedding of stop() of speech-recognition.js lines 191-219: set
isRecording false; for each of stream, context, processor and tracks,
tear down only if non-null; the media recorder is stopped only if non-null
and its state is not "inactive"; finally emit one stop event
unconditionally. -/
def stopSR (s : SRSt) : Except String (SRSt × List Ev) := do
  let s0 : SRSt := { s with isRecording := false }
  let s1 ← if s0.recognizeStream.isSome then do
      let _ ← deref s0.recognizeStream
      pure { s0 with recognizeStream := none }
    else pure s0
  let s2 ← if s1.audioContext.isSome then do
      let _ ← deref s1.audioContext
      pure { s1 with audioContext := none }
    else pure s1
  let s3 ← if s2.audioProcessor.isSome then do
      let _ ← deref s2.audioProcessor
      pure { s2 with audioProcessor := none }
    else pure s2
  let s4 ← if s3.audioStream.isSome then do
      let _ ← deref s3.audioStream
      pure { s3 with audioStream := none }
    else pure s3
  let s5 ← if (match s4.mediaRecorder with
               | some st => st != "inactive"
               | none => false) then do
      let _ ← deref s4.mediaRecorder
      pure { s4 with mediaRecorder := none }
    else pure s4
  pure (s5, [Ev.stop])

/-- A speech-recognition.js session on which start() was never called: the
constructor (lines 6-15) initialises isRecording to false and every
resource to null. -/
def freshSR : SRSt :=
  { isRecording := false, recognizeStream := none, audioContext := none,
    audioProcessor := none, audioStream := none, mediaRecorder := none }

/-- The mediaRecorder field left behind by one run of the
speech-recognition.js stop() (lines 214-217): cleared when it was non-null
with a state other than "inactive"; an "inactive" recorder is left in
place, because the guard `mediaRecorder.state !== 'inactive'` skips the
whole branch. -/
def mrAfterStop (mr : Option String) : Option String :=
  match mr with
  | some st => if st != "inactive" then none else some st
  | none => none

/-- Two successive calls to the speech-recognition.js stop(): the
concatenated event log of both calls, or the first TypeError raised. -/
def stopSRTwice (s : SRSt) : Except String (List Ev) := do
  let r1 ← stopSR s
  let r2 ← stopSR r1.1
  pure (r1.2 ++ r2.2)

/-- One alternative of a backend result: its transcript (the confidence
field is read but unused by the handlers). -/
structure Alt where
  transcript : String
deriving DecidableEq, Repr

/-- One backend result: its alternatives list (an absent field is modelled
as the empty list, which the guarded handlers treat identically) and the
isFinal flag. -/
structure RecResult where
  alternatives : List Alt
  isFinal : Bool
deriving DecidableEq, Repr

/-- One backend data message: its results list. -/
structure RecData where
  results : List RecResult
deriving DecidableEq, Repr

/-- Embedding of the data handler of part_000 lines 106-121 (identical in
structure to speech-recognition-sox.js lines 102-118): results guarded for
non-emptiness, then alternatives guarded for non-emptiness, then the first
alternative's transcript is emitted as final or interim by the isFinal
flag; the empty cases emit nothing. -/
def dataHandler (d : RecData) : List Ev :=
  match d.results with
  | [] => []
  | r :: _ =>
    match r.alternatives with
    | [] => []
    | a :: _ =>
      if r.isFinal then [Ev.final a.transcript] else [Ev.interim a.transcript]

/-- JavaScript result.alternatives[0].transcript with no guard on the
alternatives list: indexing an empty list yields undefined and the field
access on undefined throws a TypeError. -/
def firstAlt (alts : List Alt) : Except String Alt :=
  match alts with
  | [] => Except.error "TypeError"
  | a :: _ => Except.ok a

/-- Embedding of the data handler of speech-recognition.js lines 110-123:
results are guarded for non-emptiness, but the first result's alternatives
list is dereferenced at index 0 without any guard. -/
def dataHandlerSR (d : RecData) : Except String (List Ev) :=
  match d.results with
  | [] => Except.ok []
  | r :: _ => do
    let a ← firstAlt r.alternatives
    pure (if r.isFinal then [Ev.final a.transcript] else [Ev.interim a.transcript])

/-- Helper: bufPush on a buffer within capacity is an append followed by a
drop of the overflow. -/
lemma bufPush_eq_drop (buf : List Nat) (f : Nat) (h : buf.length ≤ 30) :
    bufPush buf f = (buf ++ [f]).drop (buf.length + 1 - 30) := by
  unfold bufPush
  simp only [List.length_append, List.length_cons, List.length_nil]
  by_cases h30 : 30 < buf.length + 1
  · simp only [h30, if_pos]
    rw [← List.drop_one]
    congr 1
    omega
  · simp only [h30, if_neg, if_false]
    have : buf.length + 1 - 30 = 0 := by omega
    rw [this, List.drop_zero]

/-- Helper: length of the buffer after one bufPush. -/
lemma bufPush_length (buf : List Nat) (f : Nat) (h : buf.length ≤ 30) :
    (bufPush buf f).length = min (buf.length + 1) 30 := by
  rw [bufPush_eq_drop buf f h, List.length_drop]
  simp only [List.length_append, List.length_cons, List.length_nil]
  omega

/-- Helper: the buffer contents after an arbitrary arrival sequence is the
concatenation with everything except the most recent 30 entries dropped. -/
lemma feedBuf_eq_drop (fs : List Nat) : ∀ (buf : List Nat), buf.length ≤ 30 →
    feedBuf buf fs = (buf ++ fs).drop (buf.length + fs.length - 30) := by
  induction fs with
  | nil =>
      intro buf h
      simp only [feedBuf, List.foldl_nil, List.append_nil, List.length_nil,
        Nat.add_zero]
      rw [Nat.sub_eq_zero_of_le h, List.drop_zero]
  | cons f fs ih =>
      intro buf h
      have hlen : (bufPush buf f).length ≤ 30 := by
        rw [bufPush_length buf f h]; omega
      have step : feedBuf buf (f :: fs) = feedBuf (bufPush buf f) fs := by
        simp [feedBuf]
      have hd : buf.length + 1 - 30 ≤ (buf ++ [f]).length := by simp; omega
      rw [step, ih _ hlen, bufPush_eq_drop buf f h, List.length_drop,
          ← List.drop_append_of_le_length hd, List.drop_drop]
      have harr : buf ++ [f] ++ fs = buf ++ f :: fs := by simp
      rw [harr]
      congr 1
      simp only [List.length_append, List.length_cons, List.length_nil]
      omega

/-- Helper: while disconnected and recording, the ScriptProcessor path
accumulates every frame into the audio buffer and writes nothing. -/
lemma feedScript_disconnected (fs : List Nat) : ∀ (s : SessState),
    s.stream = none → s.isRecording = true →
    feedScript s fs = { s with buffer := feedBuf s.buffer fs } := by
  induction fs with
  | nil => intro s h1 h2; simp [feedScript, feedBuf]
  | cons f fs ih =>
      intro s h1 h2
      have hstep : onFrameScript s f = { s with buffer := bufPush s.buffer f } := by
        unfold onFrameScript
        rw [h1, h2]
        simp
      have : feedScript s (f :: fs) = feedScript (onFrameScript s f) fs := by
        simp [feedScript]
      rw [this, hstep, ih _ (by simp [h1]) (by simp [h2])]
      simp [feedBuf]

/-- Helper: while a stream handle is present, the ScriptProcessor path
writes every frame directly to that handle in order. -/
lemma feedScript_connected (gs : List Nat) : ∀ (s : SessState) (h : Nat),
    s.stream = some h →
    feedScript s gs = { s with writes := s.writes ++ gs.map (fun f => (h, f)) } := by
  induction gs with
  | nil => intro s h hs; simp [feedScript]
  | cons g gs ih =>
      intro s h hs
      have hstep : onFrameScript s g = { s with writes := s.writes ++ [(h, g)] } := by
        unfold onFrameScript
        rw [hs]
      have : feedScript s (g :: gs) = feedScript (onFrameScript s g) gs := by
        simp [feedScript]
      rw [this, hstep, ih _ h (by simp [hs])]
      simp

/-- Helper: once isRecording is false, a firing restart timeout changes
neither the stream nor the next handle identifier. -/
lemma fireRestart_stopped (s : ReconnSt) (h : s.isRecording = false) :
    (fireRestart s).isRecording = false ∧ (fireRestart s).stream = s.stream ∧
      (fireRestart s).nextHandle = s.nextHandle := by
  unfold fireRestart
  rw [h]
  by_cases hp : s.pending <;> simp [hp, h]

/-- Claim C1, counterexample: in the AudioWorklet capture path of
part_000, a frame arriving while no stream handle is writable leaves the
session state completely unchanged — it is neither written nor buffered —
so it is never delivered to any stream handle, and the subsequent
reconnect drains nothing.  This refutes the claim for frames produced by
that capture path. -/
theorem c1_worklet_frame_lost :
    onFrameWorklet { isRecording := true, stream := none, buffer := [],
                     nextHandle := 5, writes := [] } 7 =
      { isRecording := true, stream := none, buffer := [],
        nextHandle := 5, writes := [] } ∧
    (restartBody (onFrameWorklet
        { isRecording := true, stream := none, buffer := [],
          nextHandle := 5, writes := [] } 7)).writes = [] := by
  exact ⟨rfl, rfl⟩

/-- Claim C1 (amended): in the ScriptProcessor capture path of part_000,
for every sequence fs of at most 30 frames produced while no stream handle
is writable, the reconnect installs a replacement handle and drains all of
fs into it in original FIFO order before any direct write, and subsequent
frames gs are then written directly after them, so the replacement handle
receives fs ++ gs in original production order. -/
theorem c1_script_frames_drained_fifo (s : SessState) (fs gs : List Nat)
    (hrec : s.isRecording = true) (hbuf : s.buffer = [])
    (hstream : s.stream = none) (hlen : fs.length ≤ 30) :
    (feedScript (restartBody (feedScript s fs)) gs).writes =
      s.writes ++ (fs ++ gs).map (fun f => (s.nextHandle, f)) ∧
    (restartBody (feedScript s fs)).writes =
      s.writes ++ fs.map (fun f => (s.nextHandle, f)) := by
  have h1 : feedScript s fs = { s with buffer := feedBuf s.buffer fs } :=
    feedScript_disconnected fs s hstream hrec
  have hfull : feedBuf s.buffer fs = fs := by
    have hz : fs.length - 30 = 0 := Nat.sub_eq_zero_of_le hlen
    rw [hbuf, feedBuf_eq_drop fs [] (by simp)]
    simp [hz]
  have h2 : restartBody (feedScript s fs) =
      { s with stream := some s.nextHandle, nextHandle := s.nextHandle + 1,
               buffer := [],
               writes := s.writes ++ fs.map (fun f => (s.nextHandle, f)) } := by
    rw [h1]
    unfold restartBody
    rw [hrec]
    simp [hfull]
  constructor
  · rw [h2, feedScript_connected gs _ s.nextHandle rfl]
    simp
  · rw [h2]

/-- Claim C1, witness: the amended theorem evaluated on a concrete
disconnected session, three buffered frames and two subsequent frames. -/
theorem c1_script_frames_drained_fifo_witness :
    (feedScript (restartBody (feedScript
        (⟨true, none, [], 0, []⟩ : SessState) [1, 2, 3])) [4, 5]).writes =
      (⟨true, none, [], 0, []⟩ : SessState).writes ++
        ([1, 2, 3] ++ [4, 5]).map
          (fun f => ((⟨true, none, [], 0, []⟩ : SessState).nextHandle, f)) ∧
    (restartBody (feedScript (⟨true, none, [], 0, []⟩ : SessState) [1, 2, 3])).writes =
      (⟨true, none, [], 0, []⟩ : SessState).writes ++
        [1, 2, 3].map (fun f => ((⟨true, none, [], 0, []⟩ : SessState).nextHandle, f)) :=
  c1_script_frames_drained_fifo ⟨true, none, [], 0, []⟩ [1, 2, 3] [4, 5]
    rfl rfl rfl (by decide)

/-- Claim C2, counterexample: the speech-recognition.js session (cited at
lines 104-109) performs no expiry classification: an error whose message
is exactly "DEADLINE_EXCEEDED" — expiry-class by the classifier the other
variants use — is emitted to the caller as an error event, refuting the
claim that expiry-class errors never surface in any session. -/
theorem c2_expiry_surfaces_in_sr_variant :
    isExpiry "DEADLINE_EXCEEDED" = true ∧
    errorHandlerSR "DEADLINE_EXCEEDED" =
      { events := [Ev.error "DEADLINE_EXCEEDED"], restart := false } :=
  ⟨by decide, rfl⟩

/-- Claim C2 (amended): in the sox variant and the part_000 web variant,
every backend error whose message contains "deadline" or
"DEADLINE_EXCEEDED" emits no event at all and calls restartStream. -/
theorem c2_expiry_silent_reconnect (msg : String) (h : isExpiry msg = true) :
    errorHandlerSox msg = { events := [], restart := true } := by
  unfold errorHandlerSox
  unfold isExpiry at h
  rcases Bool.or_eq_true_iff.mp h with h1 | h1 <;> simp [h1]

/-- Claim C2, witness: the amended theorem at the message
"DEADLINE_EXCEEDED". -/
theorem c2_expiry_silent_reconnect_witness :
    errorHandlerSox "DEADLINE_EXCEEDED" = { events := [], restart := true } :=
  c2_expiry_silent_reconnect "DEADLINE_EXCEEDED" (by decide)

/-- Claim C3, counterexample: on the non-expiry backend error
"internal error", the sox-variant error handler emits only the error
event: its event list contains no stop event, refuting the claim that a
fatal backend error produces exactly one stop event and tears the session
down (the handler also does not call restartStream or stop()). -/
theorem c3_fatal_error_emits_no_stop :
    isExpiry "internal error" = false ∧
    errorHandlerSox "internal error" =
      { events := [Ev.error "internal error"], restart := false } ∧
    Ev.stop ∉ (errorHandlerSox "internal error").events := by
  refine ⟨by decide, by decide, ?_⟩
  decide

/-- Claim C3 (amended): for every backend error not classified as expiry,
the sox-variant handler emits exactly one error event and nothing else: no
stop event is emitted and no reconnect is triggered; the session is not
torn down by the handler (stop() is never called from it). -/
theorem c3_fatal_error_single_error_event (msg : String)
    (h : isExpiry msg = false) :
    errorHandlerSox msg = { events := [Ev.error msg], restart := false } ∧
      Ev.stop ∉ (errorHandlerSox msg).events := by
  unfold isExpiry at h
  rw [Bool.or_eq_false_iff] at h
  have he : errorHandlerSox msg = { events := [Ev.error msg], restart := false } := by
    unfold errorHandlerSox
    simp [h.1, h.2]
  exact ⟨he, by rw [he]; simp⟩

/-- Claim C3, witness: the amended theorem at the message
"network unavailable". -/
theorem c3_fatal_error_single_error_event_witness :
    errorHandlerSox "network unavailable" =
      { events := [Ev.error "network unavailable"], restart := false } ∧
    Ev.stop ∉ (errorHandlerSox "network unavailable").events :=
  c3_fatal_error_single_error_event "network unavailable" (by decide)

/-- Claim C4, counterexample: no firing of the 10-second refresh timer
both triggers a restart and occurs at or before 230 seconds after stream
start — the condition is a strict comparison of the elapsed time against
230000 ms evaluated only at multiples of 10000 ms, so the first triggering
tick is tick 24 at 240 seconds. -/
theorem c4_no_refresh_by_230s :
    ¬ specRefreshByLimit ∧ tickFires 24 = true := by
  constructor
  · rintro ⟨k, hf, hle⟩
    simp only [tickFires, STREAM_LIMIT_MS, CHECK_INTERVAL_MS,
      decide_eq_true_eq] at hf hle
    omega
  · decide

/-- Claim C4 (amended): the recurring 10-second timer compares the elapsed
time since stream start against the 230-second threshold with a strict
inequality, so the k-th tick triggers a reconnect exactly when k is at
least 24; the first reconnect is therefore initiated at T + 240 seconds
(10 seconds after the threshold), not at or before T + 230 seconds. -/
theorem c4_first_refresh_at_240s :
    (∀ k : Nat, tickFires k = decide (24 ≤ k)) ∧
    24 * CHECK_INTERVAL_MS = 240000 := by
  constructor
  · intro k
    simp only [tickFires, STREAM_LIMIT_MS, CHECK_INTERVAL_MS]
    by_cases h : 24 ≤ k
    · simp [h]
      omega
    · simp [h]
      omega
  · decide

/-- Claim C5: starting from an empty audio buffer, after any arrival
sequence fs the buffer holds exactly the most recent 30 frames of fs (all
of fs when fs has at most 30 entries) in FIFO order, and in particular
never holds more than 30 frames: each append evicts the oldest entry once
the length would exceed 30. -/
theorem c5_buffer_bounded_most_recent :
    ∀ fs : List Nat,
      feedBuf [] fs = fs.drop (fs.length - 30) ∧ (feedBuf [] fs).length ≤ 30 := by
  intro fs
  have h := feedBuf_eq_drop fs [] (by simp)
  simp only [List.nil_append, List.length_nil, Nat.zero_add] at h
  refine ⟨h, ?_⟩
  rw [h, List.length_drop]
  omega

/-- Claim C6, counterexample: the part_000 converter computes
clamp(floor(s * 32767)), not clamp(round(s * 32767)): at s = -1.0 it
produces -32767, not the -32768 the claim requires, and at s = 1/2 it
produces 16383 where the claim's formula produces 16384. -/
theorem c6_converter_floor_not_round :
    convertSampleFloor (-1) = -32767 ∧ specConvert (-1) = -32767 ∧
    convertSampleFloor (1 / 2) = 16383 ∧ specConvert (1 / 2) = 16384 ∧
    ((-32767 : ℤ) ≠ -32768) := by
  refine ⟨?_, ?_, ?_, ?_, by decide⟩
  · unfold convertSampleFloor
    norm_num
  · unfold specConvert
    rw [show ((-1 : ℚ) * 32767) = ((-32767 : ℤ) : ℚ) by norm_num, round_intCast]
    norm_num
  · unfold convertSampleFloor
    norm_num
  · unfold specConvert
    rw [round_eq]
    norm_num

/-- Claim C6 (amended): the part_000 converter maps s to
clamp(floor(s * 32767), -32768, 32767), sending +1.0 to 32767 but -1.0 to
-32767; the worklet converter of part_004 (and speech-recognition.js) maps
s to the int16 truncation of clamp(s * 32768, -32768, 32767), sending +1.0
to 32767 and -1.0 to -32768; both converters always produce a value in
[-32768, 32767] and clamp out-of-range inputs (for example ±2.0), never
wrapping. -/
theorem c6_conversion_clamped_endpoints :
    (∀ s : ℚ, -32768 ≤ convertSampleFloor s ∧ convertSampleFloor s ≤ 32767) ∧
    (∀ s : ℚ, -32768 ≤ convertSample32768 s ∧ convertSample32768 s ≤ 32767) ∧
    convertSampleFloor 1 = 32767 ∧ convertSampleFloor (-1) = -32767 ∧
    convertSample32768 1 = 32767 ∧ convertSample32768 (-1) = -32768 ∧
    convertSampleFloor 2 = 32767 ∧ convertSampleFloor (-2) = -32768 ∧
    convertSample32768 2 = 32767 ∧ convertSample32768 (-2) = -32768 := by
  refine ⟨?_, ?_, ?_, ?_, ?_, ?_, ?_, ?_, ?_, ?_⟩
  · intro s
    unfold convertSampleFloor
    exact ⟨le_max_left _ _, max_le (by norm_num) (min_le_left _ _)⟩
  · intro s
    unfold convertSample32768 truncQ
    have h1 : (-32768 : ℚ) ≤ max (-32768) (min 32767 (s * 32768)) :=
      le_max_left _ _
    have h2 : max (-32768 : ℚ) (min 32767 (s * 32768)) ≤ 32767 :=
      max_le (by norm_num) (min_le_left _ _)
    by_cases hneg : max (-32768 : ℚ) (min 32767 (s * 32768)) < 0
    · simp only [hneg, if_pos]
      constructor
      · calc (-32768 : ℤ) = ⌈(-32768 : ℚ)⌉ := by
              rw [show ((-32768 : ℚ)) = ((-32768 : ℤ) : ℚ) by norm_num,
                Int.ceil_intCast]
        _ ≤ ⌈max (-32768 : ℚ) (min 32767 (s * 32768))⌉ := Int.ceil_le_ceil h1
      · have hc : ⌈max (-32768 : ℚ) (min 32767 (s * 32768))⌉ ≤ ⌈(0 : ℚ)⌉ :=
          Int.ceil_le_ceil (le_of_lt hneg)
        simp at hc
        omega
    · simp only [hneg, if_neg, if_false]
      push_neg at hneg
      constructor
      · have hf : ⌊(0 : ℚ)⌋ ≤ ⌊max (-32768 : ℚ) (min 32767 (s * 32768))⌋ :=
          Int.floor_le_floor hneg
        simp at hf
        omega
      · calc ⌊max (-32768 : ℚ) (min 32767 (s * 32768))⌋
            ≤ ⌊(32767 : ℚ)⌋ := Int.floor_le_floor h2
        _ = 32767 := by
              rw [show ((32767 : ℚ)) = ((32767 : ℤ) : ℚ) by norm_num,
                Int.floor_intCast]
  · unfold convertSampleFloor; norm_num
  · unfold convertSampleFloor; norm_num
  · unfold convertSample32768 truncQ; norm_num
  · unfold convertSample32768 truncQ
    norm_num
    rw [show ((-32768 : ℚ)) = ((-32768 : ℤ) : ℚ) by norm_num, Int.ceil_intCast]
  · unfold convertSampleFloor; norm_num
  · unfold convertSampleFloor; norm_num
  · unfold convertSample32768 truncQ; norm_num
  · unfold convertSample32768 truncQ
    norm_num
    rw [show ((-32768 : ℚ)) = ((-32768 : ℤ) : ℚ) by norm_num, Int.ceil_intCast]

/-- Helper: one call to the speech-recognition.js stop() never throws,
emits exactly one stop event, and leaves isRecording false and every
resource null except a mediaRecorder whose state was "inactive". -/
lemma stopSR_ok (ir : Bool) (rs ac ap au : Option Unit) (mr : Option String) :
    stopSR ⟨ir, rs, ac, ap, au, mr⟩ =
      Except.ok (⟨false, none, none, none, none, mrAfterStop mr⟩, [Ev.stop]) := by
  cases mr with
  | none => cases rs <;> cases ac <;> cases ap <;> cases au <;> rfl
  | some st =>
      by_cases h : st = "inactive"
      · subst h
        cases rs <;> cases ac <;> cases ap <;> cases au <;> rfl
      · have hb : (st != "inactive") = true := by simp [bne, h]
        cases rs <;> cases ac <;> cases ap <;> cases au <;>
          · simp only [stopSR, mrAfterStop, Option.isSome_none, Option.isSome_some,
              Bool.false_eq_true, if_false, if_true, pure_bind, deref, hb,
              ite_true, ite_false]
            rfl

/-- Claim C7, counterexample: calling stop() twice in succession on a
fully-running sox-variant session raises no exception but emits one stop
event per call — two stop events in total, not the exactly one the claim
requires. -/
theorem c7_double_stop_two_events :
    stopSoxTwice { isRecording := true, refreshInterval := some (),
                   recordProcess := some (), recognizeStream := some () } =
      Except.ok [Ev.stop, Ev.stop] ∧
    ([Ev.stop, Ev.stop].count Ev.stop ≠ 1) :=
  ⟨rfl, by decide⟩

/-- Claim C7 (amended): in both stop() implementations — the sox variant
(speech-recognition-sox.js lines 189-208) and the speech-recognition.js
variant with its additional mediaRecorder-state branch (lines 191-219) —
calling stop() twice in succession from any session state raises no
exception on either call (every teardown branch is guarded, including the
case of a mediaRecorder left in place because its state was "inactive")
and emits exactly one stop event per call, hence exactly two stop events
in total. -/
theorem c7_double_stop_no_exception :
    (∀ s : SoxSt, stopSoxTwice s = Except.ok [Ev.stop, Ev.stop]) ∧
    (∀ s : SRSt, stopSRTwice s = Except.ok [Ev.stop, Ev.stop]) := by
  constructor
  · intro s
    obtain ⟨ir, ri, rp, rs⟩ := s
    cases ri <;> cases rp <;> cases rs <;> rfl
  · intro s
    obtain ⟨ir, rs, ac, ap, au, mr⟩ := s
    unfold stopSRTwice
    rw [stopSR_ok ir rs ac ap au mr]
    show stopSR ⟨false, none, none, none, none, mrAfterStop mr⟩ >>=
        (fun r2 => pure ([Ev.stop] ++ r2.2)) = Except.ok [Ev.stop, Ev.stop]
    rw [stopSR_ok false none none none none (mrAfterStop mr)]
    rfl

/-- Claim C8: once stop() has begun (it first sets isRecording to false
and clears the stream), a pending restartStream timeout may still fire —
any number of times — but its isRecording guard defuses it: no new stream
handle is ever created (the next-handle counter never advances) and the
session stays disconnected. -/
theorem c8_stop_defuses_pending_reconnect (s : ReconnSt) (n : Nat) :
    (fireRestart^[n] (stopReconn s)).stream = none ∧
    (fireRestart^[n] (stopReconn s)).nextHandle = s.nextHandle ∧
    (fireRestart^[n] (stopReconn s)).isRecording = false := by
  induction n with
  | zero => simp [stopReconn]
  | succ n ih =>
      rw [Function.iterate_succ_apply']
      obtain ⟨h1, h2, h3⟩ := ih
      obtain ⟨g1, g2, g3⟩ := fireRestart_stopped _ h3
      refine ⟨?_, ?_, g1⟩
      · rw [g2, h1]
      · rw [g3, h2]

/-- Claim C9, counterexample: the speech-recognition.js data handler
dereferences result.alternatives[0] without a guard, so a backend result
with an empty alternatives list raises a TypeError rather than being
silently ignored; the guarded part_000 handler ignores the same result. -/
theorem c9_sr_throws_on_empty_alternatives :
    dataHandlerSR { results := [{ alternatives := [], isFinal := false }] } =
      Except.error "TypeError" ∧
    dataHandler { results := [{ alternatives := [], isFinal := false }] } = [] :=
  ⟨rfl, rfl⟩

/-- Claim C9 (amended): the part_000 and sox-variant data handler is total:
a message with no results, or whose first result has an empty or absent
alternatives list, emits nothing and raises nothing; a first result with a
non-empty alternatives list emits exactly the first alternative's
transcript, as final exactly when the isFinal flag is set and as interim
otherwise.  The speech-recognition.js handler behaves the same on
non-empty alternatives (and empty results) but throws a TypeError on a
result with empty alternatives. -/
theorem c9_result_handling :
    dataHandler { results := [] } = [] ∧
    (∀ (fin : Bool) (rest : List RecResult),
      dataHandler { results := { alternatives := [], isFinal := fin } :: rest } = []) ∧
    (∀ (a : Alt) (as : List Alt) (fin : Bool) (rest : List RecResult),
      dataHandler { results := { alternatives := a :: as, isFinal := fin } :: rest } =
        (if fin then [Ev.final a.transcript] else [Ev.interim a.transcript])) ∧
    (∀ (a : Alt) (as : List Alt) (fin : Bool) (rest : List RecResult),
      dataHandlerSR { results := { alternatives := a :: as, isFinal := fin } :: rest } =
        Except.ok (if fin then [Ev.final a.transcript] else [Ev.interim a.transcript])) ∧
    dataHandlerSR { results := [] } = Except.ok [] :=
  ⟨rfl, fun _ _ => rfl, fun _ _ _ _ => rfl, fun _ _ _ _ => rfl, rfl⟩

/-- Claim C10: calling stop() on a session that was never started — every
resource field still null as the constructors initialise them — raises no
exception in either variant, because every teardown branch is guarded on
its resource being non-null, and still emits exactly one stop event. -/
theorem c10_stop_on_fresh_session :
    (stopSox freshSox).map (fun p => p.2) = Except.ok [Ev.stop] ∧
    (stopSR freshSR).map (fun p => p.2) = Except.ok [Ev.stop] :=
  ⟨rfl, rfl⟩

end Captions
